import Mathlib

/-!
Shallow embedding of `tools/travel_tools.py` and `tools/schemas.py` from the
Trip_Planner_Google_ADK repository.

The two search tools are HTTP clients; we model the network as an oracle
`net : ℕ → HttpResult` giving the outcome of the k-th outbound request made
during one tool call, and every tool function additionally returns the list
of requests it issued, so that frame claims ("no network call is made") are
statable.  JSON response bodies are modelled by the inductive `Json`;
Python's fallible dictionary/list/string operations are modelled in
`Except PyErr`.  Numbers are exact rationals (the prices exercised by the
claims are exactly representable as binary floats, so float rounding does
not distinguish the model from the code on them).  `random.randint` /
`random.uniform` draws are modelled as explicit streams `ℕ → ℕ` / `ℕ → ℚ`
passed to the run functions.
-/

namespace TripPlanner

/-- A JSON value, the shape of every HTTP response body. -/
inductive Json where
  | null
  | bool (b : Bool)
  | str (s : String)
  | num (q : ℚ)
  | arr (xs : List Json)
  | obj (fields : List (String × Json))

/-- Kinds of Python exceptions the embedded code can raise.
`reqErr` stands for `requests.exceptions.RequestException` (the only kind the
source catches); the others are uncaught wherever they arise. -/
inductive PyErr where
  | reqErr
  | valueErr
  | keyErr
  | indexErr
  | typeErr
  | attrErr
deriving Repr, DecidableEq

/-- Outcome of one outbound HTTP request: a transport-level failure
(`requests` raises), or a response with a status code and a JSON body. -/
inductive HttpResult where
  | netErr
  | resp (status : Nat) (body : Json)

/-- The outbound requests the tools can issue, recorded in issue order. -/
inductive Request where
  | authReq
  | flightReq (origin dest date : String) (adults : Nat)
  | hotelListReq (city : String)
  | hotelOffersReq (ids : String) (check_in check_out : String) (adults : Nat)
deriving Repr, DecidableEq, BEq

/-- First binding of a key in a JSON object's field list. -/
def lookupField : List (String × Json) → String → Option Json
  | [], _ => none
  | (k, v) :: fs, key => if k = key then some v else lookupField fs key

/-- Python truthiness of a JSON value (`if not token`, `if hotel_offer.get("offers")`). -/
def Json.isFalsy : Json → Bool
  | .null => true
  | .bool b => !b
  | .str s => s.isEmpty
  | .num q => q = 0
  | .arr xs => xs.isEmpty
  | .obj fs => fs.isEmpty

/-- Python `d[k]` on a JSON value: `KeyError` when the key is absent,
`TypeError` when the value is not a dictionary. -/
def pySubscript (j : Json) (k : String) : Except PyErr Json :=
  match j with
  | .obj fs =>
    match lookupField fs k with
    | some v => .ok v
    | none => .error .keyErr
  | _ => .error .typeErr

/-- Python `d.get(k, default)`: the default when the key is absent,
`AttributeError` when the receiver is not a dictionary. -/
def pyGetD (j : Json) (k : String) (d : Json) : Except PyErr Json :=
  match j with
  | .obj fs => .ok ((lookupField fs k).getD d)
  | _ => .error .attrErr

/-- Python `d.get(k)` (default `None`). -/
def pyGet (j : Json) (k : String) : Except PyErr Json :=
  pyGetD j k .null

/-- Python `xs[i]` on a JSON value expected to be a list. -/
def pyIndex (j : Json) (i : Nat) : Except PyErr Json :=
  match j with
  | .arr xs =>
    match xs.get? i with
    | some v => .ok v
    | none => .error .indexErr
  | _ => .error .typeErr

/-- A JSON value used where Python requires a `str` (string methods,
`",".join`, pydantic `str` fields); any other shape is a type-level error. -/
def asStr (j : Json) : Except PyErr String :=
  match j with
  | .str s => .ok s
  | _ => .error .typeErr

/-- A JSON value used where Python iterates / slices a list
(`data[:3]`, `for item in data`); any other shape is a type-level error. -/
def asArr (j : Json) : Except PyErr (List Json) :=
  match j with
  | .arr xs => .ok xs
  | _ => .error .typeErr

/-- Python `"hotelId" in item` for a JSON dictionary (the only receiver shape
the mapped responses exercise); non-dictionaries are a type-level error. -/
def pyContainsKey (j : Json) (k : String) : Except PyErr Bool :=
  match j with
  | .obj fs => .ok (lookupField fs k).isSome
  | _ => .error .typeErr

/-- Value of a digit string, `none` if any character is not a digit. -/
def decDigits : List Char → Option Nat
  | [] => some 0
  | c :: cs =>
    if c.isDigit then (decDigits cs).map (fun n => (c.toNat - 48) * 10 ^ cs.length + n)
    else none

/-- Python `float(s)` on plain decimal literals: optional sign, digits,
optional point and fraction digits (exponents and special forms, which the
mapped price fields never carry, are out of the modelled fragment). -/
def parsePyFloat (s : String) : Option ℚ :=
  let withSign : List Char → ℚ × List Char := fun cs =>
    match cs with
    | '-' :: rest => (-1, rest)
    | '+' :: rest => (1, rest)
    | _ => (1, cs)
  let (sign, cs) := withSign s.data
  let intPart := cs.takeWhile (·.isDigit)
  let rest := cs.dropWhile (·.isDigit)
  match rest with
  | [] =>
    if intPart.isEmpty then none
    else (decDigits intPart).map (fun n => sign * n)
  | '.' :: fracCs =>
    let fracPart := fracCs.takeWhile (·.isDigit)
    if fracCs.dropWhile (·.isDigit) = [] ∧ ¬(intPart.isEmpty ∧ fracPart.isEmpty) then
      match decDigits intPart, decDigits fracPart with
      | some n, some f => some (sign * (n + (f : ℚ) / 10 ^ fracPart.length))
      | _, _ => none
    else none
  | _ => none

/-- Python `float(x)` on a JSON value. -/
def pyFloat (j : Json) : Except PyErr ℚ :=
  match j with
  | .num q => .ok q
  | .str s =>
    match parsePyFloat s with
    | some q => .ok q
    | none => .error .valueErr
  | .bool b => .ok (if b then 1 else 0)
  | _ => .error .typeErr

/-- Python `round(q, 2)` on exact values: round half to even at two decimals. -/
def pyRound2 (q : ℚ) : ℚ :=
  let x := q * 100
  let f : ℤ := ⌊x⌋
  let r := x - f
  let n : ℤ :=
    if r < 1 / 2 then f
    else if 1 / 2 < r then f + 1
    else if f % 2 = 0 then f else f + 1
  (n : ℚ) / 100

/-- Python `s.split(c)` for a one-character separator, on the character list. -/
def splitCh (c : Char) : List Char → List (List Char)
  | [] => [[]]
  | x :: xs =>
    if x = c then [] :: splitCh c xs
    else
      match splitCh c xs with
      | [] => [[x]]
      | y :: ys => (x :: y) :: ys

/-- Python `s.replace("PT", "")`: drop every non-overlapping occurrence of
`"PT"`, scanning left to right. -/
def pyReplacePT : List Char → List Char
  | 'P' :: 'T' :: rest => pyReplacePT rest
  | c :: rest => c :: pyReplacePT rest
  | [] => []

/-! Schemas from `tools/schemas.py` (the fields the tools actually populate). -/

/-- `FlightOption` of `tools/schemas.py`. -/
structure FlightOption where
  flight_id : String
  airline : String
  price : ℚ
  departure_time : String
  duration : String
deriving Repr, DecidableEq

/-- `FlightSearchResult` of `tools/schemas.py`. -/
structure FlightSearchResult where
  options : List FlightOption
deriving Repr, DecidableEq

/-- `HotelOption` of `tools/schemas.py`. -/
structure HotelOption where
  name : String
  price_per_night : ℚ
  rating : ℚ
  amenities_summary : String
  distance_to_center : Option ℚ
deriving Repr, DecidableEq

/-- `HotelSearchResult` of `tools/schemas.py`. -/
structure HotelSearchResult where
  options : List HotelOption
deriving Repr, DecidableEq

/-- `_get_access_token` applied to the auth endpoint's outcome: on transport
failure or a 4xx/5xx status (`raise_for_status`) the caught
`RequestException` is logged and re-raised; a response whose body lacks a
truthy `access_token` raises `ValueError`, which the handler does not catch. -/
def authExchange : HttpResult → Except PyErr Json
  | .netErr => .error .reqErr
  | .resp status body =>
    if 400 ≤ status then .error .reqErr
    else
      match pyGet body "access_token" with
      | .error e => .error e
      | .ok token => if token.isFalsy then .error .valueErr else .ok token

/-- `random.randint(100, 999)` applied to a raw draw. -/
def pyRandint100to999 (r : Nat) : Nat := 100 + r % 900

/-- The synthesized id `f"AMADEUS-{random.randint(100, 999)}"`. -/
def mkFlightId (r : Nat) : String := "AMADEUS-" ++ toString (pyRandint100to999 r)

namespace FlightSearchTool

/-- `float(offer["price"]["total"])`. -/
def offerTotal (offer : Json) : Except PyErr ℚ :=
  match pySubscript offer "price" with
  | .error e => .error e
  | .ok priceObj =>
    match pySubscript priceObj "total" with
    | .error e => .error e
    | .ok totalJ => pyFloat totalJ

/-- `offer["itineraries"][0]`. -/
def offerItin0 (offer : Json) : Except PyErr Json :=
  match pySubscript offer "itineraries" with
  | .error e => .error e
  | .ok itins => pyIndex itins 0

/-- `offer["itineraries"][0]["segments"][0]`. -/
def offerSeg0 (offer : Json) : Except PyErr Json :=
  match offerItin0 offer with
  | .error e => .error e
  | .ok itin0 =>
    match pySubscript itin0 "segments" with
    | .error e => .error e
    | .ok segs => pyIndex segs 0

/-- `first_segment["departure"]["at"]` as the string the code slices. -/
def offerDepartureAt (offer : Json) : Except PyErr String :=
  match offerSeg0 offer with
  | .error e => .error e
  | .ok seg0 =>
    match pySubscript seg0 "departure" with
    | .error e => .error e
    | .ok dep =>
      match pySubscript dep "at" with
      | .error e => .error e
      | .ok atJ => asStr atJ

/-- `at.split('T')[1][:5]`: `IndexError` when the timestamp has no `'T'`. -/
def pyTimePart (s : String) : Except PyErr String :=
  match (splitCh 'T' s.data).get? 1 with
  | none => .error .indexErr
  | some p => .ok (String.mk (p.take 5))

/-- `offer["itineraries"][0]["duration"]` as a string. -/
def offerDuration (offer : Json) : Except PyErr String :=
  match offerItin0 offer with
  | .error e => .error e
  | .ok itin0 =>
    match pySubscript itin0 "duration" with
    | .error e => .error e
    | .ok durJ => asStr durJ

/-- `first_segment["carrierCode"]` as a string. -/
def offerCarrier (offer : Json) : Except PyErr String :=
  match offerSeg0 offer with
  | .error e => .error e
  | .ok seg0 =>
    match pySubscript seg0 "carrierCode" with
    | .error e => .error e
    | .ok cJ => asStr cJ

/-- The non-random fields one loop iteration of `FlightSearchTool.run`
extracts from a single offer. -/
structure Core where
  airline : String
  price : ℚ
  departure_time : String
  duration : String
deriving Repr, DecidableEq

/-- One iteration of the mapping loop in `FlightSearchTool.run`, without the
random `flight_id` draw. -/
def mapOfferCore (offer : Json) : Except PyErr Core :=
  match offerTotal offer with
  | .error e => .error e
  | .ok price =>
    match offerDepartureAt offer with
    | .error e => .error e
    | .ok atS =>
      match pyTimePart atS with
      | .error e => .error e
      | .ok departure_time =>
        match offerDuration offer with
        | .error e => .error e
        | .ok durS =>
          match offerCarrier offer with
          | .error e => .error e
          | .ok airline =>
            .ok ⟨airline, price, departure_time,
                 String.mk ((pyReplacePT durS.data).map Char.toLower)⟩

/-- The mapping loop of `FlightSearchTool.run` over the (already truncated)
offer list, consuming one `randint` draw per appended option; an exception in
any iteration aborts the whole loop. -/
def mapOffers (rand : Nat → Nat) : Nat → List Json → Except PyErr (List FlightOption)
  | _, [] => .ok []
  | i, offer :: rest =>
    match mapOfferCore offer with
    | .error e => .error e
    | .ok c =>
      match mapOffers rand (i + 1) rest with
      | .error e => .error e
      | .ok tail =>
        .ok ({ flight_id := mkFlightId (rand i), airline := c.airline, price := c.price,
               departure_time := c.departure_time, duration := c.duration } :: tail)

/-- `search_data.get("data", [])` followed by the `[:3]`-ready list view. -/
def responseData (body : Json) : Except PyErr (List Json) :=
  match pyGetD body "data" (.arr []) with
  | .error e => .error e
  | .ok dataJ => asArr dataJ

/-- The `try` block of `FlightSearchTool.run`: the GET request,
`raise_for_status`, and the mapping of the first three offers. -/
def tryBlock (searchResp : HttpResult) (rand : Nat → Nat) :
    Except PyErr FlightSearchResult :=
  match searchResp with
  | .netErr => .error .reqErr
  | .resp status body =>
    if 400 ≤ status then .error .reqErr
    else
      match responseData body with
      | .error e => .error e
      | .ok offers =>
        match mapOffers rand 0 (offers.take 3) with
        | .error e => .error e
        | .ok opts => .ok ⟨opts⟩

/-- `FlightSearchTool.run`: token acquisition (outside any handler), then the
guarded search; only `RequestException` from the `try` block is converted to
an empty result.  Returns the outcome and the issued requests in order. -/
def run (net : Nat → HttpResult) (origin dest date : String) (adults : Nat)
    (rand : Nat → Nat) : Except PyErr FlightSearchResult × List Request :=
  match authExchange (net 0) with
  | .error e => (.error e, [.authReq])
  | .ok _token =>
    let res :=
      match tryBlock (net 1) rand with
      | .error .reqErr => .ok ⟨[]⟩
      | r => r
    (res, [.authReq, .flightReq origin dest date adults])

end FlightSearchTool

namespace HotelSearchTool

/-- The comprehension `[item["hotelId"] for item in data if "hotelId" in item]`. -/
def extractHotelIds : List Json → Except PyErr (List Json)
  | [] => .ok []
  | item :: rest =>
    match pyContainsKey item "hotelId" with
    | .error e => .error e
    | .ok keep =>
      if keep then
        match pySubscript item "hotelId" with
        | .error e => .error e
        | .ok v =>
          match extractHotelIds rest with
          | .error e => .error e
          | .ok tail => .ok (v :: tail)
      else
        extractHotelIds rest

/-- The `try` block of `_get_hotel_ids`: the GET, `raise_for_status`, the id
comprehension, and the `[:5]` truncation. -/
def get_hotel_ids_try (listResp : HttpResult) : Except PyErr (List Json) :=
  match listResp with
  | .netErr => .error .reqErr
  | .resp status body =>
    if 400 ≤ status then .error .reqErr
    else
      match FlightSearchTool.responseData body with
      | .error e => .error e
      | .ok data =>
        match extractHotelIds data with
        | .error e => .error e
        | .ok ids => .ok (ids.take 5)

/-- `_get_hotel_ids`: token acquisition outside the handler (auth failures
propagate), then the guarded listing GET; a caught `RequestException`
becomes an empty id list. `k` is the index of the next network request. -/
def get_hotel_ids (net : Nat → HttpResult) (k : Nat) (cityCode : String) :
    Except PyErr (List Json) × List Request :=
  match authExchange (net k) with
  | .error e => (.error e, [.authReq])
  | .ok _token =>
    let res :=
      match get_hotel_ids_try (net (k + 1)) with
      | .error .reqErr => .ok []
      | r => r
    (res, [.authReq, .hotelListReq cityCode])

/-- `",".join(hotel_ids)`: `TypeError` when any element is not a string. -/
def joinIds : List Json → Except PyErr String
  | [] => .ok ""
  | [j] => asStr j
  | j :: rest =>
    match asStr j with
    | .error e => .error e
    | .ok s =>
      match joinIds rest with
      | .error e => .error e
      | .ok t => .ok (s ++ "," ++ t)

/-- The non-random fields one loop iteration of `_get_hotel_offers` extracts
from a hotel entry; `none` means the entry was skipped because its
`offers` value was missing or falsy. -/
def mapEntryCore (entry : Json) : Except PyErr (Option (String × ℚ)) :=
  match pyGet entry "offers" with
  | .error e => .error e
  | .ok offersJ =>
    if offersJ.isFalsy then .ok none
    else
      match pySubscript entry "offers" with
      | .error e => .error e
      | .ok offersJ2 =>
        match pyIndex offersJ2 0 with
        | .error e => .error e
        | .ok cheapest =>
          match pySubscript cheapest "price" with
          | .error e => .error e
          | .ok priceObj =>
            match pySubscript priceObj "total" with
            | .error e => .error e
            | .ok totalJ =>
              match pyFloat totalJ with
              | .error e => .error e
              | .ok total =>
                match pySubscript entry "hotel" with
                | .error e => .error e
                | .ok hotelInfo =>
                  match pyGetD hotelInfo "name" (.str "Unknown Hotel") with
                  | .error e => .error e
                  | .ok nameJ =>
                    match asStr nameJ with
                    | .error e => .error e
                    | .ok name => .ok (some (name, pyRound2 (total / 3)))

/-- The mapping loop of `_get_hotel_offers` over the (already truncated)
entry list, consuming one `random.uniform(3.0, 5.0)` draw per appended
option; entries without offers are skipped. -/
def mapEntries (randU : Nat → ℚ) : Nat → List Json → Except PyErr (List HotelOption)
  | _, [] => .ok []
  | i, entry :: rest =>
    match mapEntryCore entry with
    | .error e => .error e
    | .ok none => mapEntries randU i rest
    | .ok (some c) =>
      match mapEntries randU (i + 1) rest with
      | .error e => .error e
      | .ok tail =>
        .ok ({ name := c.1, price_per_night := c.2, rating := randU i,
               amenities_summary := "Check for amenities in the offer details.",
               distance_to_center := none } :: tail)

/-- The `try` block of `_get_hotel_offers`: the GET, `raise_for_status`, and
the mapping of the first five hotel entries. -/
def get_hotel_offers_try (offersResp : HttpResult) (randU : Nat → ℚ) :
    Except PyErr HotelSearchResult :=
  match offersResp with
  | .netErr => .error .reqErr
  | .resp status body =>
    if 400 ≤ status then .error .reqErr
    else
      match FlightSearchTool.responseData body with
      | .error e => .error e
      | .ok entries =>
        match mapEntries randU 0 (entries.take 5) with
        | .error e => .error e
        | .ok opts => .ok ⟨opts⟩

/-- `_get_hotel_offers`: an empty id list short-circuits before any network
activity; otherwise a fresh token is acquired (outside the handler), the ids
are comma-joined, and the guarded offers GET runs, a caught
`RequestException` becoming an empty result. -/
def get_hotel_offers (net : Nat → HttpResult) (k : Nat) (hotel_ids : List Json)
    (check_in check_out : String) (adults : Nat) (randU : Nat → ℚ) :
    Except PyErr HotelSearchResult × List Request :=
  if hotel_ids.isEmpty then (.ok ⟨[]⟩, [])
  else
    match authExchange (net k) with
    | .error e => (.error e, [.authReq])
    | .ok _token =>
      match joinIds hotel_ids with
      | .error e => (.error e, [.authReq])
      | .ok idsStr =>
        let res :=
          match get_hotel_offers_try (net (k + 1)) randU with
          | .error .reqErr => .ok ⟨[]⟩
          | r => r
        (res, [.authReq, .hotelOffersReq idsStr check_in check_out adults])

/-- `HotelSearchTool.run`: phase 1 resolves ids, phase 2 fetches offers, and
the final list is filtered to options at or below `max_budget`. -/
def run (net : Nat → HttpResult) (cityCode check_in check_out : String)
    (max_budget : ℚ) (adults : Nat) (randU : Nat → ℚ) :
    Except PyErr HotelSearchResult × List Request :=
  match get_hotel_ids net 0 cityCode with
  | (.error e, tr) => (.error e, tr)
  | (.ok hotel_ids, tr) =>
    match get_hotel_offers net tr.length hotel_ids check_in check_out adults randU with
    | (.error e, tr2) => (.error e, tr ++ tr2)
    | (.ok results, tr2) =>
      (.ok ⟨results.options.filter (fun o => decide (o.price_per_night ≤ max_budget))⟩,
       tr ++ tr2)

end HotelSearchTool

/-! Predicates used to state the claims, and concrete stub worlds. -/

/-- Equality of flight options on every field except the randomly drawn
`flight_id`. -/
def FlightOption.eqExceptId (a b : FlightOption) : Prop :=
  a.airline = b.airline ∧ a.price = b.price ∧
  a.departure_time = b.departure_time ∧ a.duration = b.duration

/-- Equality of hotel options on every field except the randomly drawn
`rating`. -/
def HotelOption.eqExceptRating (a b : HotelOption) : Prop :=
  a.name = b.name ∧ a.price_per_night = b.price_per_night ∧
  a.amenities_summary = b.amenities_summary ∧
  a.distance_to_center = b.distance_to_center

/-- Lift a relation on successes to tool outcomes: equal exceptions, or
related results. -/
def exceptRel {α : Type} (R : α → α → Prop) :
    Except PyErr α → Except PyErr α → Prop
  | .error e, .error e2 => e = e2
  | .ok a, .ok b => R a b
  | _, _ => False

/-- A well-formed `"HH:MM"` character sequence: two digit pairs in range,
separated by a colon. -/
def isHHMM : List Char → Bool
  | [h1, h2, c, m1, m2] =>
    h1.isDigit && h2.isDigit && (c == ':') && m1.isDigit && m2.isDigit &&
    decide ((h1.toNat - 48) * 10 + (h2.toNat - 48) < 24) &&
    decide ((m1.toNat - 48) * 10 + (m2.toNat - 48) < 60)
  | _ => false

/-- An upstream departure timestamp the `"HH:MM"` slice is meaningful for: a
date part without `'T'`, the `'T'` separator, then a time part whose first
five characters are a well-formed `"HH:MM"`. -/
def TimestampOk (s : String) : Prop :=
  ∃ d t, s.data = d ++ 'T' :: t ∧ 'T' ∉ d ∧ isHHMM (t.take 5) = true

/-- A flight offer whose extractable total price is nonnegative and whose
extractable departure timestamp is well formed. -/
def OfferWF (offer : Json) : Prop :=
  (∀ q, FlightSearchTool.offerTotal offer = .ok q → 0 ≤ q) ∧
  (∀ s, FlightSearchTool.offerDepartureAt offer = .ok s → TimestampOk s)

/-- A successful authorization response carrying a token. -/
def authOKResp : HttpResult := .resp 200 (.obj [("access_token", .str "tok")])

/-- A flight offer body with the four fields the mapping reads. -/
def mkFlightOffer (total atS carrier dur : String) : Json :=
  .obj [("price", .obj [("total", .str total)]),
        ("itineraries", .arr [.obj [
          ("duration", .str dur),
          ("segments", .arr [.obj [
            ("departure", .obj [("at", .str atS)]),
            ("carrierCode", .str carrier)]])]])]

/-- A stub world for one flight search: successful auth, then a 200 offers
response whose `data` array is the given list. -/
def mkFlightNet (offers : List Json) : Nat → HttpResult := fun n =>
  if n = 0 then authOKResp else .resp 200 (.obj [("data", .arr offers)])

/-- A hotel entry body with one nested offer priced `total`. -/
def mkHotelEntry (name total : String) : Json :=
  .obj [("offers", .arr [.obj [("price", .obj [("total", .str total)])]]),
        ("hotel", .obj [("name", .str name)])]

/-- A stub world for one hotel search: successful auths, a 200 listing
response with `listData`, and a 200 offers response with `offersData`. -/
def mkHotelNet (listData offersData : List Json) : Nat → HttpResult := fun n =>
  match n with
  | 0 => authOKResp
  | 1 => .resp 200 (.obj [("data", .arr listData)])
  | 2 => authOKResp
  | _ => .resp 200 (.obj [("data", .arr offersData)])

/-- A hotel-listing entry carrying a `hotelId`. -/
def mkHotelIdEntry (ident : String) : Json := .obj [("hotelId", .str ident)]

/-- A hotel entry with hotel info but no `offers` array. -/
def offerlessEntry : Json := .obj [("hotel", .obj [("name", .str "No Offers Inn")])]

/-- A world where every request fails at the transport level. -/
def netAllFail : Nat → HttpResult := fun _ => .netErr

/-- A constant `randint` draw stream. -/
def rand0 : Nat → Nat := fun _ => 0

/-- A constant `uniform(3.0, 5.0)` draw stream. -/
def randU4 : Nat → ℚ := fun _ => 4

/-! Theorems. -/

/-- C1, counterexample: with the authorization endpoint down (transport
failure), both tool runs raise the `RequestException` to the caller instead
of returning an empty result — the token call sits outside every `try`
block, and `_get_access_token` itself re-raises. -/
theorem C1_counterexample :
    (FlightSearchTool.run netAllFail "MAA" "BSL" "2025-12-15" 2 rand0).1 =
      .error .reqErr ∧
    (HotelSearchTool.run netAllFail "BSL" "2025-12-15" "2025-12-18" 150 2 randU4).1 =
      .error .reqErr := by
  exact ⟨rfl, rfl⟩

/-- C1, amended: whenever `_get_access_token` fails (network error,
non-success status, or a body with no truthy access token), both
`FlightSearchTool.run` and `HotelSearchTool.run` propagate that exception to
the caller rather than returning an empty result. -/
theorem C1_amended (net : Nat → HttpResult) (origin dest date : String)
    (adults : Nat) (rand : Nat → Nat) (city check_in check_out : String)
    (budget : ℚ) (ad : Nat) (randU : Nat → ℚ) (e : PyErr)
    (h : authExchange (net 0) = .error e) :
    (FlightSearchTool.run net origin dest date adults rand).1 = .error e ∧
    (HotelSearchTool.run net city check_in check_out budget ad randU).1 = .error e := by
  constructor
  · unfold FlightSearchTool.run
    rw [h]
  · unfold HotelSearchTool.run HotelSearchTool.get_hotel_ids
    rw [h]

/-- C1, witness for the amended theorem at a concrete failing world. -/
theorem C1_amended_witness :
    (FlightSearchTool.run netAllFail "NYC" "LAX" "2026-01-01" 1 rand0).1 =
      .error .reqErr ∧
    (HotelSearchTool.run netAllFail "PAR" "2026-01-01" "2026-01-04" 120 2 randU4).1 =
      .error .reqErr :=
  C1_amended netAllFail "NYC" "LAX" "2026-01-01" 1 rand0 "PAR" "2026-01-01"
    "2026-01-04" 120 2 randU4 .reqErr rfl

/-- C6: against the stub returning one offer priced `"450.00"`, departing
`"2025-12-15T08:30:00"`, carrier `"LX"`, duration `"PT10H30M"`, the flight
search returns exactly one option with price `450`, departure time
`"08:30"`, duration `"10h30m"`, airline `"LX"` (and the synthesized id from
the `randint` draw). -/
theorem C6_flight_scenario (rand : Nat → Nat) :
    FlightSearchTool.run
        (mkFlightNet [mkFlightOffer "450.00" "2025-12-15T08:30:00" "LX" "PT10H30M"])
        "MAA" "BSL" "2025-12-15" 2 rand =
      (.ok ⟨[⟨mkFlightId (rand 0), "LX", 450, "08:30", "10h30m"⟩]⟩,
       [.authReq, .flightReq "MAA" "BSL" "2025-12-15" 2]) := by
  with_unfolding_all rfl

/-- C2: every option in a successfully returned hotel search result is at or
below the caller-supplied `max_budget` — the post-mapping filter invariant. -/
theorem C2_budget_filter (net : Nat → HttpResult) (city check_in check_out : String)
    (max_budget : ℚ) (adults : Nat) (randU : Nat → ℚ) (res : HotelSearchResult)
    (tr : List Request)
    (h : HotelSearchTool.run net city check_in check_out max_budget adults randU =
      (.ok res, tr)) :
    ∀ o ∈ res.options, o.price_per_night ≤ max_budget := by
  intro o ho
  unfold HotelSearchTool.run at h
  rcases h1 : HotelSearchTool.get_hotel_ids net 0 city with ⟨r1, tr1⟩
  rw [h1] at h
  cases r1 with
  | error e => simp at h
  | ok hotel_ids =>
    dsimp only at h
    rcases h2 : HotelSearchTool.get_hotel_offers net tr1.length hotel_ids check_in
        check_out adults randU with ⟨r2, tr2⟩
    rw [h2] at h
    cases r2 with
    | error e => simp at h
    | ok results =>
      simp only [Prod.mk.injEq, Except.ok.injEq] at h
      obtain ⟨hres, -⟩ := h
      rw [← hres] at ho
      have := List.mem_filter.mp ho
      exact of_decide_eq_true this.2

/-- C2, witness: the option the stub world returns is within budget. -/
theorem C2_budget_filter_witness :
    ({ name := "Hotel A", price_per_night := 100, rating := 4,
       amenities_summary := "Check for amenities in the offer details.",
       distance_to_center := none } : HotelOption).price_per_night ≤ 150 :=
  C2_budget_filter (mkHotelNet [mkHotelIdEntry "H1"] [mkHotelEntry "Hotel A" "300.00"])
    "BSL" "2025-12-15" "2025-12-18" 150 2 randU4
    ⟨[{ name := "Hotel A", price_per_night := 100, rating := 4,
        amenities_summary := "Check for amenities in the offer details.",
        distance_to_center := none }]⟩
    [.authReq, .hotelListReq "BSL", .authReq,
     .hotelOffersReq "H1" "2025-12-15" "2025-12-18" 2]
    (by with_unfolding_all rfl) _ (List.mem_singleton.mpr rfl)

/-- C3, counterexample: for an upstream total of `"100.00"` the mapped
`price_per_night` is the two-decimal rounding `33.33`, which is not the
exact quotient `100 / 3` the claim asserts. -/
theorem C3_counterexample :
    HotelSearchTool.mapEntryCore (mkHotelEntry "Unknown" "100.00") =
      .ok (some ("Unknown", 3333 / 100)) ∧ (3333 / 100 : ℚ) ≠ 100 / 3 := by
  constructor
  · with_unfolding_all rfl
  · with_unfolding_all decide

/-- C3, amended: every mapped hotel offer's `price_per_night` is the
upstream total divided by the hard-coded constant 3 and rounded to two
decimals, independent of the check-in/check-out interval (the dates do not
enter the computation at all); in the `"600.00"` / budget-150 scenario the
quotient is exactly `200`, above budget, so the final result is empty. -/
theorem C3_amended :
    (∀ (name total : String) (q : ℚ), pyFloat (.str total) = .ok q →
      HotelSearchTool.mapEntryCore (mkHotelEntry name total) =
        .ok (some (name, pyRound2 (q / 3)))) ∧
    (∀ (net : Nat → HttpResult) (k : Nat) (ids : List Json)
      (ci ci2 co co2 : String) (ad : Nat) (randU : Nat → ℚ),
      (HotelSearchTool.get_hotel_offers net k ids ci co ad randU).1 =
        (HotelSearchTool.get_hotel_offers net k ids ci2 co2 ad randU).1) ∧
    HotelSearchTool.mapEntryCore (mkHotelEntry "Hotel A" "600.00") =
      .ok (some ("Hotel A", 200)) ∧
    ¬((200 : ℚ) ≤ 150) ∧
    HotelSearchTool.run (mkHotelNet [mkHotelIdEntry "H1"] [mkHotelEntry "Hotel A" "600.00"])
        "BSL" "2025-12-15" "2025-12-18" 150 2 randU4 =
      (.ok ⟨[]⟩, [.authReq, .hotelListReq "BSL", .authReq,
                  .hotelOffersReq "H1" "2025-12-15" "2025-12-18" 2]) := by
  refine ⟨?_, ?_, ?_, ?_, ?_⟩
  · intro name total q hq
    simp [HotelSearchTool.mapEntryCore, mkHotelEntry, pyGet, pyGetD, pySubscript,
      pyIndex, lookupField, asStr, Json.isFalsy, hq]
  · intro net k ids ci ci2 co co2 ad randU
    unfold HotelSearchTool.get_hotel_offers
    cases hbe : ids.isEmpty with
    | true => simp [hbe]
    | false =>
      simp only [hbe, Bool.false_eq_true, if_false]
      cases authExchange (net k) with
      | error e => rfl
      | ok t =>
        cases HotelSearchTool.joinIds ids with
        | error e => rfl
        | ok s => rfl
  · with_unfolding_all rfl
  · with_unfolding_all decide
  · with_unfolding_all rfl

/-- C3, witness for the amended theorem's universal part at `"450.00"`. -/
theorem C3_amended_witness :
    HotelSearchTool.mapEntryCore (mkHotelEntry "X" "450.00") =
      .ok (some ("X", pyRound2 ((450 : ℚ) / 3))) :=
  C3_amended.1 "X" "450.00" 450 (by with_unfolding_all rfl)

/-- C4: with an empty identifier list the offers phase issues no request at
all (neither token acquisition nor offers GET) and returns an empty result,
and a whole run whose id resolution yields an empty list produces an empty
final result with only the phase-1 requests on the wire. -/
theorem C4_empty_ids_short_circuit :
    (∀ (net : Nat → HttpResult) (k : Nat) (ci co : String) (ad : Nat)
      (randU : Nat → ℚ),
      HotelSearchTool.get_hotel_offers net k [] ci co ad randU = (.ok ⟨[]⟩, [])) ∧
    (∀ (net : Nat → HttpResult) (city ci co : String) (b : ℚ) (ad : Nat)
      (randU : Nat → ℚ),
      (HotelSearchTool.get_hotel_ids net 0 city).1 = .ok [] →
      HotelSearchTool.run net city ci co b ad randU =
        (.ok ⟨[]⟩, (HotelSearchTool.get_hotel_ids net 0 city).2)) := by
  constructor
  · intro net k ci co ad randU
    rfl
  · intro net city ci co b ad randU hids
    unfold HotelSearchTool.run
    rcases h1 : HotelSearchTool.get_hotel_ids net 0 city with ⟨r1, tr1⟩
    rw [h1] at hids
    simp only at hids
    subst hids
    simp only [h1]
    rw [show HotelSearchTool.get_hotel_offers net tr1.length ([] : List Json) ci co ad
        randU = (.ok ⟨[]⟩, []) from rfl]
    simp

/-- C4, witness: a world whose city listing has no hotels. -/
theorem C4_empty_ids_short_circuit_witness :
    HotelSearchTool.run (mkHotelNet [] []) "BSL" "2025-12-15" "2025-12-18" 150 2 randU4 =
      (.ok ⟨[]⟩, (HotelSearchTool.get_hotel_ids (mkHotelNet [] []) 0 "BSL").2) :=
  C4_empty_ids_short_circuit.2 (mkHotelNet [] []) "BSL" "2025-12-15" "2025-12-18"
    150 2 randU4 rfl

/-- Phase 1 always issues exactly one token request, whatever its outcome. -/
theorem get_hotel_ids_auth_count (net : Nat → HttpResult) (k : Nat) (city : String) :
    ((HotelSearchTool.get_hotel_ids net k city).2).count Request.authReq = 1 := by
  unfold HotelSearchTool.get_hotel_ids
  cases authExchange (net k) with
  | error e => rfl
  | ok t => rfl

/-- Phase 2 issues a token request exactly when the id list is nonempty. -/
theorem get_hotel_offers_auth_count (net : Nat → HttpResult) (k : Nat)
    (ids : List Json) (ci co : String) (ad : Nat) (randU : Nat → ℚ) :
    ((HotelSearchTool.get_hotel_offers net k ids ci co ad randU).2).count Request.authReq =
      if ids.isEmpty then 0 else 1 := by
  unfold HotelSearchTool.get_hotel_offers
  cases hbe : ids.isEmpty with
  | true => simp [hbe]
  | false =>
    simp only [hbe, Bool.false_eq_true, if_false]
    cases authExchange (net k) with
    | error e => rfl
    | ok t =>
      cases HotelSearchTool.joinIds ids with
      | error e => rfl
      | ok s => rfl

/-- C9, counterexample: when the city listing contains no hotels, the search
performs only the phase-1 token acquisition — one, not two. -/
theorem C9_counterexample :
    HotelSearchTool.run (mkHotelNet [] []) "BSL" "2025-12-15" "2025-12-19" 150 2 randU4 =
      (.ok ⟨[]⟩, [.authReq, .hotelListReq "BSL"]) ∧
    ([Request.authReq, Request.hotelListReq "BSL"].count Request.authReq) ≠ 2 := by
  constructor
  · rfl
  · decide

/-- C9, amended: a hotel search performs exactly two token acquisitions when
phase 1 resolves a nonempty identifier list, and exactly one (the phase-1
acquisition alone) otherwise — on phase-1 failure or an empty id list the
offers phase acquires no token. -/
theorem C9_amended (net : Nat → HttpResult) (city ci co : String) (b : ℚ)
    (ad : Nat) (randU : Nat → ℚ) :
    ((HotelSearchTool.run net city ci co b ad randU).2).count Request.authReq =
      (match (HotelSearchTool.get_hotel_ids net 0 city).1 with
       | .ok (_ :: _) => 2
       | _ => 1) := by
  unfold HotelSearchTool.run
  rcases h1 : HotelSearchTool.get_hotel_ids net 0 city with ⟨r1, tr1⟩
  have htr1 : tr1.count Request.authReq = 1 := by
    have := get_hotel_ids_auth_count net 0 city
    rw [h1] at this
    exact this
  cases r1 with
  | error e => simpa using htr1
  | ok hotel_ids =>
    dsimp only
    rcases h2 : HotelSearchTool.get_hotel_offers net tr1.length hotel_ids ci co ad
        randU with ⟨r2, tr2⟩
    have htr2 : tr2.count Request.authReq = if hotel_ids.isEmpty then 0 else 1 := by
      have := get_hotel_offers_auth_count net tr1.length hotel_ids ci co ad randU
      rw [h2] at this
      exact this
    cases r2 with
    | error e =>
      simp only [List.count_append, htr1, htr2]
      cases hotel_ids <;> simp
    | ok results =>
      simp only [List.count_append, htr1, htr2]
      cases hotel_ids <;> simp

/-- C10: a hotel entry whose `offers` value is missing or an empty array is
skipped without an exception and contributes no option, so a successful
search can return fewer options than the upstream `data` array has entries
(the stub below maps two entries to one option). -/
theorem C10_offerless_entries_skipped :
    (∀ fields : List (String × Json), lookupField fields "offers" = none →
      HotelSearchTool.mapEntryCore (.obj fields) = .ok none) ∧
    (∀ fields : List (String × Json), lookupField fields "offers" = some (.arr []) →
      HotelSearchTool.mapEntryCore (.obj fields) = .ok none) ∧
    (∀ (randU : Nat → ℚ) (i : Nat) (entry : Json) (rest : List Json),
      HotelSearchTool.mapEntryCore entry = .ok none →
      HotelSearchTool.mapEntries randU i (entry :: rest) =
        HotelSearchTool.mapEntries randU i rest) ∧
    HotelSearchTool.get_hotel_offers_try
        (.resp 200 (.obj [("data", .arr [offerlessEntry, mkHotelEntry "Hotel B" "300.00"])]))
        randU4 =
      .ok ⟨[{ name := "Hotel B", price_per_night := 100, rating := 4,
              amenities_summary := "Check for amenities in the offer details.",
              distance_to_center := none }]⟩ := by
  refine ⟨?_, ?_, ?_, ?_⟩
  · intro fields hf
    simp [HotelSearchTool.mapEntryCore, pyGet, pyGetD, hf, Json.isFalsy]
  · intro fields hf
    simp [HotelSearchTool.mapEntryCore, pyGet, pyGetD, hf, Json.isFalsy]
  · intro randU i entry rest hskip
    conv_lhs => rw [HotelSearchTool.mapEntries]
    rw [hskip]
  · with_unfolding_all rfl

/-- C10, witness: the skip equations at a concrete offerless entry. -/
theorem C10_offerless_entries_skipped_witness :
    HotelSearchTool.mapEntryCore (.obj [("hotel", .obj [("name", .str "No Offers Inn")])]) =
      .ok none :=
  C10_offerless_entries_skipped.1 [("hotel", .obj [("name", .str "No Offers Inn")])] rfl

/-- The stub token is truthy. -/
theorem tok_isEmpty : "tok".isEmpty = false := rfl

/-- C7: when the HTTP exchange succeeds but the body lacks an expected field
— a flight offer without `"price"`, a flight offer without `"itineraries"`,
or a hotel offer without `"price"` — the mapping's `KeyError` is not caught:
the tool call aborts with the exception instead of returning an empty or
partial result. -/
theorem C7_missing_field_raises :
    (∀ (fields : List (String × Json)) (o d dt : String) (a : Nat) (rand : Nat → Nat),
      lookupField fields "price" = none →
      (FlightSearchTool.run (mkFlightNet [.obj fields]) o d dt a rand).1 =
        .error .keyErr) ∧
    (∀ (fields : List (String × Json)) (o d dt : String) (a : Nat) (rand : Nat → Nat)
      (q : ℚ),
      FlightSearchTool.offerTotal (.obj fields) = .ok q →
      lookupField fields "itineraries" = none →
      (FlightSearchTool.run (mkFlightNet [.obj fields]) o d dt a rand).1 =
        .error .keyErr) ∧
    (∀ (ofields : List (String × Json)) (city ci co : String) (b : ℚ) (ad : Nat)
      (randU : Nat → ℚ),
      lookupField ofields "price" = none →
      (HotelSearchTool.run
          (mkHotelNet [mkHotelIdEntry "H1"] [.obj [("offers", .arr [.obj ofields])]])
          city ci co b ad randU).1 = .error .keyErr) := by
  refine ⟨?_, ?_, ?_⟩
  · intro fields o d dt a rand hf
    simp [FlightSearchTool.run, mkFlightNet, authOKResp, authExchange, pyGet, pyGetD,
      lookupField, Json.isFalsy, tok_isEmpty, FlightSearchTool.tryBlock,
      FlightSearchTool.responseData, asArr, FlightSearchTool.mapOffers,
      FlightSearchTool.mapOfferCore, FlightSearchTool.offerTotal, pySubscript, hf]
  · intro fields o d dt a rand q hq hf
    simp [FlightSearchTool.run, mkFlightNet, authOKResp, authExchange, pyGet, pyGetD,
      lookupField, Json.isFalsy, tok_isEmpty, FlightSearchTool.tryBlock,
      FlightSearchTool.responseData, asArr, FlightSearchTool.mapOffers,
      FlightSearchTool.mapOfferCore, hq,
      FlightSearchTool.offerDepartureAt, FlightSearchTool.offerSeg0,
      FlightSearchTool.offerItin0, pySubscript, hf]
  · intro ofields city ci co b ad randU hf
    simp [HotelSearchTool.run, HotelSearchTool.get_hotel_ids,
      HotelSearchTool.get_hotel_ids_try, HotelSearchTool.extractHotelIds,
      HotelSearchTool.get_hotel_offers, HotelSearchTool.get_hotel_offers_try,
      HotelSearchTool.joinIds, HotelSearchTool.mapEntries, HotelSearchTool.mapEntryCore,
      mkHotelNet, mkHotelIdEntry, authOKResp, authExchange, pyGet, pyGetD, pySubscript,
      pyIndex, pyContainsKey, lookupField, Json.isFalsy, tok_isEmpty, asStr, asArr,
      FlightSearchTool.responseData, hf]

/-- C7, witness: concrete offers missing the respective fields. -/
theorem C7_missing_field_raises_witness :
    (FlightSearchTool.run (mkFlightNet [.obj [("carrierCode", .str "LX")]])
        "MAA" "BSL" "2025-12-15" 2 rand0).1 = .error .keyErr ∧
    (FlightSearchTool.run (mkFlightNet [.obj [("price", .obj [("total", .str "450.00")])]])
        "MAA" "BSL" "2025-12-15" 2 rand0).1 = .error .keyErr ∧
    (HotelSearchTool.run (mkHotelNet [mkHotelIdEntry "H1"] [.obj [("offers", .arr [.obj []])]])
        "BSL" "2025-12-15" "2025-12-18" 150 2 randU4).1 = .error .keyErr :=
  ⟨C7_missing_field_raises.1 [("carrierCode", .str "LX")] "MAA" "BSL" "2025-12-15" 2
      rand0 rfl,
   C7_missing_field_raises.2.1 [("price", .obj [("total", .str "450.00")])] "MAA" "BSL"
      "2025-12-15" 2 rand0 450 (by with_unfolding_all rfl) rfl,
   C7_missing_field_raises.2.2 [] "BSL" "2025-12-15" "2025-12-18" 150 2 randU4 rfl⟩

/-- The flight mapping loop relates any two `randint` streams: same errors,
and option lists equal except for `flight_id`. -/
theorem mapOffers_rel (r1 r2 : Nat → Nat) :
    ∀ (os : List Json) (i j : Nat),
      exceptRel (List.Forall₂ FlightOption.eqExceptId)
        (FlightSearchTool.mapOffers r1 i os) (FlightSearchTool.mapOffers r2 j os) := by
  intro os
  induction os with
  | nil =>
    intro i j
    simp [FlightSearchTool.mapOffers, exceptRel]
  | cons o rest ih =>
    intro i j
    have hrec := ih (i + 1) (j + 1)
    simp only [FlightSearchTool.mapOffers]
    cases hc : FlightSearchTool.mapOfferCore o with
    | error e => simp [exceptRel]
    | ok c =>
      cases h1 : FlightSearchTool.mapOffers r1 (i + 1) rest with
      | error e =>
        cases h2 : FlightSearchTool.mapOffers r2 (j + 1) rest with
        | error e2 =>
          rw [h1, h2] at hrec
          simpa [exceptRel] using hrec
        | ok t2 =>
          rw [h1, h2] at hrec
          exact absurd hrec (by simp [exceptRel])
      | ok t1 =>
        cases h2 : FlightSearchTool.mapOffers r2 (j + 1) rest with
        | error e2 =>
          rw [h1, h2] at hrec
          exact absurd hrec (by simp [exceptRel])
        | ok t2 =>
          rw [h1, h2] at hrec
          simp only [exceptRel] at hrec ⊢
          exact List.Forall₂.cons ⟨rfl, rfl, rfl, rfl⟩ hrec

/-- The flight `try` block relates any two `randint` streams. -/
theorem flight_tryBlock_rel (resp : HttpResult) (r1 r2 : Nat → Nat) :
    exceptRel (fun x y => List.Forall₂ FlightOption.eqExceptId x.options y.options)
      (FlightSearchTool.tryBlock resp r1) (FlightSearchTool.tryBlock resp r2) := by
  cases resp with
  | netErr => simp [FlightSearchTool.tryBlock, exceptRel]
  | resp status body =>
    simp only [FlightSearchTool.tryBlock]
    by_cases hst : 400 ≤ status
    · simp [hst, exceptRel]
    · simp only [hst, if_false]
      cases hd : FlightSearchTool.responseData body with
      | error e => simp [exceptRel]
      | ok offers =>
        dsimp only
        have hrel := mapOffers_rel r1 r2 (offers.take 3) 0 0
        generalize FlightSearchTool.mapOffers r1 0 (offers.take 3) = x1 at hrel ⊢
        generalize FlightSearchTool.mapOffers r2 0 (offers.take 3) = x2 at hrel ⊢
        cases x1 <;> cases x2 <;> simp [exceptRel] at hrel ⊢ <;> try exact hrel

/-- The hotel mapping loop relates any two `uniform` streams: same errors,
and option lists equal except for `rating`. -/
theorem mapEntries_rel (u1 u2 : Nat → ℚ) :
    ∀ (es : List Json) (i j : Nat),
      exceptRel (List.Forall₂ HotelOption.eqExceptRating)
        (HotelSearchTool.mapEntries u1 i es) (HotelSearchTool.mapEntries u2 j es) := by
  intro es
  induction es with
  | nil =>
    intro i j
    simp [HotelSearchTool.mapEntries, exceptRel]
  | cons entry rest ih =>
    intro i j
    simp only [HotelSearchTool.mapEntries]
    cases hc : HotelSearchTool.mapEntryCore entry with
    | error e => simp [exceptRel]
    | ok oc =>
      cases oc with
      | none => exact ih i j
      | some c =>
        have hrec := ih (i + 1) (j + 1)
        cases h1 : HotelSearchTool.mapEntries u1 (i + 1) rest with
        | error e =>
          cases h2 : HotelSearchTool.mapEntries u2 (j + 1) rest with
          | error e2 =>
            rw [h1, h2] at hrec
            simpa [exceptRel] using hrec
          | ok t2 =>
            rw [h1, h2] at hrec
            exact absurd hrec (by simp [exceptRel])
        | ok t1 =>
          cases h2 : HotelSearchTool.mapEntries u2 (j + 1) rest with
          | error e2 =>
            rw [h1, h2] at hrec
            exact absurd hrec (by simp [exceptRel])
          | ok t2 =>
            rw [h1, h2] at hrec
            simp only [exceptRel] at hrec ⊢
            exact List.Forall₂.cons ⟨rfl, rfl, rfl, rfl⟩ hrec

/-- The hotel offers `try` block relates any two `uniform` streams. -/
theorem hotel_tryBlock_rel (resp : HttpResult) (u1 u2 : Nat → ℚ) :
    exceptRel (fun x y => List.Forall₂ HotelOption.eqExceptRating x.options y.options)
      (HotelSearchTool.get_hotel_offers_try resp u1)
      (HotelSearchTool.get_hotel_offers_try resp u2) := by
  cases resp with
  | netErr => simp [HotelSearchTool.get_hotel_offers_try, exceptRel]
  | resp status body =>
    simp only [HotelSearchTool.get_hotel_offers_try]
    by_cases hst : 400 ≤ status
    · simp [hst, exceptRel]
    · simp only [hst, if_false]
      cases hd : FlightSearchTool.responseData body with
      | error e => simp [exceptRel]
      | ok entries =>
        dsimp only
        have hrel := mapEntries_rel u1 u2 (entries.take 5) 0 0
        generalize HotelSearchTool.mapEntries u1 0 (entries.take 5) = x1 at hrel ⊢
        generalize HotelSearchTool.mapEntries u2 0 (entries.take 5) = x2 at hrel ⊢
        cases x1 <;> cases x2 <;> simp [exceptRel] at hrel ⊢ <;> try exact hrel

/-- Phase 2 relates any two `uniform` streams, with identical traces. -/
theorem get_hotel_offers_rel (net : Nat → HttpResult) (k : Nat) (ids : List Json)
    (ci co : String) (ad : Nat) (u1 u2 : Nat → ℚ) :
    exceptRel (fun x y => List.Forall₂ HotelOption.eqExceptRating x.options y.options)
      (HotelSearchTool.get_hotel_offers net k ids ci co ad u1).1
      (HotelSearchTool.get_hotel_offers net k ids ci co ad u2).1 ∧
    (HotelSearchTool.get_hotel_offers net k ids ci co ad u1).2 =
      (HotelSearchTool.get_hotel_offers net k ids ci co ad u2).2 := by
  unfold HotelSearchTool.get_hotel_offers
  cases hbe : ids.isEmpty with
  | true => simp [hbe, exceptRel]
  | false =>
    simp only [hbe, Bool.false_eq_true, if_false]
    cases authExchange (net k) with
    | error e => simp [exceptRel]
    | ok t =>
      cases HotelSearchTool.joinIds ids with
      | error e => simp [exceptRel]
      | ok s =>
        refine ⟨?_, rfl⟩
        have hrel := hotel_tryBlock_rel (net (k + 1)) u1 u2
        cases h1 : HotelSearchTool.get_hotel_offers_try (net (k + 1)) u1 with
        | error e =>
          cases h2 : HotelSearchTool.get_hotel_offers_try (net (k + 1)) u2 with
          | error e2 =>
            rw [h1, h2] at hrel
            simp only [exceptRel] at hrel
            subst hrel
            cases e <;> simp [exceptRel]
          | ok t2 =>
            rw [h1, h2] at hrel
            exact absurd hrel (by simp [exceptRel])
        | ok t1 =>
          cases h2 : HotelSearchTool.get_hotel_offers_try (net (k + 1)) u2 with
          | error e2 =>
            rw [h1, h2] at hrel
            exact absurd hrel (by simp [exceptRel])
          | ok t2 =>
            rw [h1, h2] at hrel
            simpa [exceptRel] using hrel

/-- The budget filter preserves rating-agnostic equality of option lists. -/
theorem filter_budget_rel (b : ℚ) :
    ∀ (xs ys : List HotelOption), List.Forall₂ HotelOption.eqExceptRating xs ys →
      List.Forall₂ HotelOption.eqExceptRating
        (xs.filter fun o => decide (o.price_per_night ≤ b))
        (ys.filter fun o => decide (o.price_per_night ≤ b)) := by
  intro xs ys h
  induction h with
  | nil => simp
  | @cons x y tx ty hxy hrest ih =>
    obtain ⟨h1, hp, h3, h4⟩ := hxy
    simp only [List.filter_cons, hp]
    cases hd : decide (y.price_per_night ≤ b)
    · simpa [hd] using ih
    · simpa [hd] using List.Forall₂.cons ⟨h1, hp, h3, h4⟩ ih

/-- C8: two runs of either tool with identical arguments against the same
stubbed upstream produce structurally identical outcomes — equal exceptions,
or result sequences equal in every field — except for the randomly drawn
`flight_id` (flights) and `rating` (hotels), which may differ between the
two draws. -/
theorem C8_idempotent_modulo_random :
    (∀ (net : Nat → HttpResult) (o d dt : String) (a : Nat) (r1 r2 : Nat → Nat),
      exceptRel (fun x y => List.Forall₂ FlightOption.eqExceptId x.options y.options)
        (FlightSearchTool.run net o d dt a r1).1
        (FlightSearchTool.run net o d dt a r2).1) ∧
    (∀ (net : Nat → HttpResult) (city ci co : String) (b : ℚ) (ad : Nat)
      (u1 u2 : Nat → ℚ),
      exceptRel (fun x y => List.Forall₂ HotelOption.eqExceptRating x.options y.options)
        (HotelSearchTool.run net city ci co b ad u1).1
        (HotelSearchTool.run net city ci co b ad u2).1) := by
  constructor
  · intro net o d dt a r1 r2
    unfold FlightSearchTool.run
    cases authExchange (net 0) with
    | error e => simp [exceptRel]
    | ok t =>
      dsimp only
      have hrel := flight_tryBlock_rel (net 1) r1 r2
      generalize FlightSearchTool.tryBlock (net 1) r1 = x1 at hrel ⊢
      generalize FlightSearchTool.tryBlock (net 1) r2 = x2 at hrel ⊢
      cases x1 with
      | error e =>
        cases x2 with
        | error e2 =>
          simp only [exceptRel] at hrel
          subst hrel
          cases e <;> simp [exceptRel]
        | ok t2 => exact absurd hrel (by simp [exceptRel])
      | ok t1 =>
        cases x2 with
        | error e2 => exact absurd hrel (by simp [exceptRel])
        | ok t2 => simpa [exceptRel] using hrel
  · intro net city ci co b ad u1 u2
    unfold HotelSearchTool.run
    rcases hids : HotelSearchTool.get_hotel_ids net 0 city with ⟨ri, tr1⟩
    cases ri with
    | error e => simp [exceptRel]
    | ok ids =>
      dsimp only
      obtain ⟨hrel, htr⟩ := get_hotel_offers_rel net tr1.length ids ci co ad u1 u2
      rcases p1 : HotelSearchTool.get_hotel_offers net tr1.length ids ci co ad u1
        with ⟨x1, t1⟩
      rcases p2 : HotelSearchTool.get_hotel_offers net tr1.length ids ci co ad u2
        with ⟨x2, t2⟩
      rw [p1, p2] at hrel
      simp only at hrel
      cases x1 with
      | error e =>
        cases x2 with
        | error e2 =>
          simp only [exceptRel] at hrel
          subst hrel
          simp [exceptRel]
        | ok v2 => exact absurd hrel (by simp [exceptRel])
      | ok v1 =>
        cases x2 with
        | error e2 => exact absurd hrel (by simp [exceptRel])
        | ok v2 =>
          simp only [exceptRel] at hrel ⊢
          exact filter_budget_rel b _ _ hrel

/-- Dictionary subscription never raises a `RequestException`. -/
theorem pySubscript_no_req (j : Json) (k : String) :
    pySubscript j k ≠ .error .reqErr := by
  cases j <;> simp [pySubscript]
  case obj fs => cases lookupField fs k <;> simp

/-- `.get` with a default never raises a `RequestException`. -/
theorem pyGetD_no_req (j : Json) (k : String) (d : Json) :
    pyGetD j k d ≠ .error .reqErr := by
  cases j <;> simp [pyGetD]

/-- List indexing never raises a `RequestException`. -/
theorem pyIndex_no_req (j : Json) (i : Nat) :
    pyIndex j i ≠ .error .reqErr := by
  unfold pyIndex
  cases j with
  | arr xs => dsimp only; split <;> simp
  | null => simp
  | bool b => simp
  | str s => simp
  | num q => simp
  | obj fs => simp

/-- String coercion never raises a `RequestException`. -/
theorem asStr_no_req (j : Json) : asStr j ≠ .error .reqErr := by
  cases j <;> simp [asStr]

/-- List coercion never raises a `RequestException`. -/
theorem asArr_no_req (j : Json) : asArr j ≠ .error .reqErr := by
  cases j <;> simp [asArr]

/-- `float(...)` never raises a `RequestException`. -/
theorem pyFloat_no_req (j : Json) : pyFloat j ≠ .error .reqErr := by
  cases j <;> simp [pyFloat]
  case str s => cases parsePyFloat s <;> simp

/-- The time slice never raises a `RequestException`. -/
theorem pyTimePart_no_req (s : String) :
    FlightSearchTool.pyTimePart s ≠ .error .reqErr := by
  unfold FlightSearchTool.pyTimePart
  cases (splitCh 'T' s.data).get? 1 <;> simp

/-- Price extraction never raises a `RequestException`. -/
theorem offerTotal_no_req (offer : Json) :
    FlightSearchTool.offerTotal offer ≠ .error .reqErr := by
  unfold FlightSearchTool.offerTotal
  cases hp : pySubscript offer "price" with
  | error e =>
    intro h
    simp only [Except.error.injEq] at h
    exact pySubscript_no_req offer "price" (h ▸ hp)
  | ok p =>
    dsimp only
    cases ht : pySubscript p "total" with
    | error e =>
      intro h
      simp only [Except.error.injEq] at h
      exact pySubscript_no_req p "total" (h ▸ ht)
    | ok tj => dsimp only; exact pyFloat_no_req tj

/-- First-itinerary extraction never raises a `RequestException`. -/
theorem offerItin0_no_req (offer : Json) :
    FlightSearchTool.offerItin0 offer ≠ .error .reqErr := by
  unfold FlightSearchTool.offerItin0
  cases hp : pySubscript offer "itineraries" with
  | error e =>
    intro h
    simp only [Except.error.injEq] at h
    exact pySubscript_no_req offer "itineraries" (h ▸ hp)
  | ok itins => dsimp only; exact pyIndex_no_req itins 0

/-- First-segment extraction never raises a `RequestException`. -/
theorem offerSeg0_no_req (offer : Json) :
    FlightSearchTool.offerSeg0 offer ≠ .error .reqErr := by
  unfold FlightSearchTool.offerSeg0
  cases hi : FlightSearchTool.offerItin0 offer with
  | error e =>
    intro h
    simp only [Except.error.injEq] at h
    exact offerItin0_no_req offer (h ▸ hi)
  | ok itin0 =>
    dsimp only
    cases hs : pySubscript itin0 "segments" with
    | error e =>
      intro h
      simp only [Except.error.injEq] at h
      exact pySubscript_no_req itin0 "segments" (h ▸ hs)
    | ok segs => dsimp only; exact pyIndex_no_req segs 0

/-- Departure-timestamp extraction never raises a `RequestException`. -/
theorem offerDepartureAt_no_req (offer : Json) :
    FlightSearchTool.offerDepartureAt offer ≠ .error .reqErr := by
  unfold FlightSearchTool.offerDepartureAt
  cases hs : FlightSearchTool.offerSeg0 offer with
  | error e =>
    intro h
    simp only [Except.error.injEq] at h
    exact offerSeg0_no_req offer (h ▸ hs)
  | ok seg0 =>
    dsimp only
    cases hd : pySubscript seg0 "departure" with
    | error e =>
      intro h
      simp only [Except.error.injEq] at h
      exact pySubscript_no_req seg0 "departure" (h ▸ hd)
    | ok dep =>
      dsimp only
      cases ha : pySubscript dep "at" with
      | error e =>
        intro h
        simp only [Except.error.injEq] at h
        exact pySubscript_no_req dep "at" (h ▸ ha)
      | ok atJ => dsimp only; exact asStr_no_req atJ

/-- Duration extraction never raises a `RequestException`. -/
theorem offerDuration_no_req (offer : Json) :
    FlightSearchTool.offerDuration offer ≠ .error .reqErr := by
  unfold FlightSearchTool.offerDuration
  cases hi : FlightSearchTool.offerItin0 offer with
  | error e =>
    intro h
    simp only [Except.error.injEq] at h
    exact offerItin0_no_req offer (h ▸ hi)
  | ok itin0 =>
    dsimp only
    cases hd : pySubscript itin0 "duration" with
    | error e =>
      intro h
      simp only [Except.error.injEq] at h
      exact pySubscript_no_req itin0 "duration" (h ▸ hd)
    | ok durJ => dsimp only; exact asStr_no_req durJ

/-- Carrier extraction never raises a `RequestException`. -/
theorem offerCarrier_no_req (offer : Json) :
    FlightSearchTool.offerCarrier offer ≠ .error .reqErr := by
  unfold FlightSearchTool.offerCarrier
  cases hs : FlightSearchTool.offerSeg0 offer with
  | error e =>
    intro h
    simp only [Except.error.injEq] at h
    exact offerSeg0_no_req offer (h ▸ hs)
  | ok seg0 =>
    dsimp only
    cases hc : pySubscript seg0 "carrierCode" with
    | error e =>
      intro h
      simp only [Except.error.injEq] at h
      exact pySubscript_no_req seg0 "carrierCode" (h ▸ hc)
    | ok cJ => dsimp only; exact asStr_no_req cJ

/-- One mapping iteration never raises a `RequestException`. -/
theorem mapOfferCore_no_req (offer : Json) :
    FlightSearchTool.mapOfferCore offer ≠ .error .reqErr := by
  unfold FlightSearchTool.mapOfferCore
  cases h1 : FlightSearchTool.offerTotal offer with
  | error e =>
    intro h
    simp only [Except.error.injEq] at h
    exact offerTotal_no_req offer (h ▸ h1)
  | ok price =>
    dsimp only
    cases h2 : FlightSearchTool.offerDepartureAt offer with
    | error e =>
      intro h
      simp only [Except.error.injEq] at h
      exact offerDepartureAt_no_req offer (h ▸ h2)
    | ok atS =>
      dsimp only
      cases h3 : FlightSearchTool.pyTimePart atS with
      | error e =>
        intro h
        simp only [Except.error.injEq] at h
        exact pyTimePart_no_req atS (h ▸ h3)
      | ok dtS =>
        dsimp only
        cases h4 : FlightSearchTool.offerDuration offer with
        | error e =>
          intro h
          simp only [Except.error.injEq] at h
          exact offerDuration_no_req offer (h ▸ h4)
        | ok durS =>
          dsimp only
          cases h5 : FlightSearchTool.offerCarrier offer with
          | error e =>
            intro h
            simp only [Except.error.injEq] at h
            exact offerCarrier_no_req offer (h ▸ h5)
          | ok airline => simp

/-- The whole mapping loop never raises a `RequestException`. -/
theorem mapOffers_no_req (rand : Nat → Nat) :
    ∀ (os : List Json) (i : Nat),
      FlightSearchTool.mapOffers rand i os ≠ .error .reqErr := by
  intro os
  induction os with
  | nil => intro i; simp [FlightSearchTool.mapOffers]
  | cons o rest ih =>
    intro i
    simp only [FlightSearchTool.mapOffers]
    cases hc : FlightSearchTool.mapOfferCore o with
    | error e =>
      intro h
      simp only [Except.error.injEq] at h
      exact mapOfferCore_no_req o (h ▸ hc)
    | ok c =>
      dsimp only
      cases hm : FlightSearchTool.mapOffers rand (i + 1) rest with
      | error e =>
        intro h
        simp only [Except.error.injEq] at h
        exact ih (i + 1) (h ▸ hm)
      | ok tail => simp

/-- `data` extraction never raises a `RequestException`. -/
theorem responseData_no_req (body : Json) :
    FlightSearchTool.responseData body ≠ .error .reqErr := by
  unfold FlightSearchTool.responseData
  cases hd : pyGetD body "data" (.arr []) with
  | error e =>
    intro h
    simp only [Except.error.injEq] at h
    exact pyGetD_no_req body "data" (.arr []) (h ▸ hd)
  | ok dataJ => dsimp only; exact asArr_no_req dataJ

/-- Splitting a list that starts with a separator-free prefix peels off that
prefix as the first chunk. -/
theorem splitCh_not_mem (c : Char) (d t : List Char) (hd : c ∉ d) :
    splitCh c (d ++ c :: t) = d :: splitCh c t := by
  induction d with
  | nil => simp [splitCh]
  | cons x xs ih =>
    have hx : ¬(x = c) := fun h => hd (h ▸ List.mem_cons_self x xs)
    have hxs : c ∉ xs := fun h => hd (List.mem_cons_of_mem x h)
    rw [List.cons_append]
    simp only [splitCh, if_neg hx, ih hxs]

/-- `splitCh` never returns an empty chunk list. -/
theorem splitCh_ne_nil (c : Char) (t : List Char) : splitCh c t ≠ [] := by
  cases t with
  | nil => simp [splitCh]
  | cons x xs =>
    simp only [splitCh]
    by_cases hx : x = c
    · simp [hx]
    · simp only [if_neg hx]
      cases splitCh c xs <;> simp

/-- When the first `n` characters avoid the separator, the first chunk of the
split agrees with the original list on those `n` characters. -/
theorem splitCh_head_take (c : Char) :
    ∀ (t : List Char) (n : Nat), (∀ x ∈ t.take n, x ≠ c) →
      ∃ w ys, splitCh c t = w :: ys ∧ w.take n = t.take n := by
  intro t
  induction t with
  | nil =>
    intro n h
    exact ⟨[], [], rfl, by simp⟩
  | cons x xs ih =>
    intro n h
    cases n with
    | zero =>
      rcases hsp : splitCh c (x :: xs) with _ | ⟨w, ys⟩
      · exact absurd hsp (splitCh_ne_nil c (x :: xs))
      · exact ⟨w, ys, rfl, by simp⟩
    | succ m =>
      have hx : ¬(x = c) := h x (by simp)
      have hm : ∀ y ∈ xs.take m, y ≠ c := fun y hy => h y (by simp [hy])
      obtain ⟨w, ys, hw, ht⟩ := ih m hm
      refine ⟨x :: w, ys, ?_, ?_⟩
      · simp only [splitCh, if_neg hx, hw]
      · simp [List.take_cons, ht]

/-- A character of a well-formed `"HH:MM"` slice is a digit or a colon, so it
is never the `'T'` separator. -/
theorem isHHMM_no_T (cs : List Char) (h : isHHMM cs = true) :
    ∀ x ∈ cs, x ≠ 'T' := by
  rcases cs with _ | ⟨a, _ | ⟨b, _ | ⟨c3, _ | ⟨d4, _ | ⟨e5, _ | ⟨f6, rest⟩⟩⟩⟩⟩⟩ <;>
    simp [isHHMM] at h
  obtain ⟨⟨⟨⟨⟨⟨ha, hb⟩, hc⟩, hd4⟩, he5⟩, -⟩, -⟩ := h
  have digit_ne : ∀ x : Char, x.isDigit = true → x ≠ 'T' := by
    intro x hx hxT
    rw [hxT] at hx
    simp [Char.isDigit] at hx
  intro x hx
  simp only [List.mem_cons, List.not_mem_nil, or_false] at hx
  rcases hx with rfl | rfl | rfl | rfl | rfl
  · exact digit_ne _ ha
  · exact digit_ne _ hb
  · rw [hc]; decide
  · exact digit_ne _ hd4
  · exact digit_ne _ he5

/-- On a well-formed timestamp, the `split('T')[1][:5]` slice succeeds and
yields a well-formed `"HH:MM"` string. -/
theorem pyTimePart_of_TimestampOk (s : String) (h : TimestampOk s) :
    ∃ t5, FlightSearchTool.pyTimePart s = .ok t5 ∧ isHHMM t5.data = true := by
  obtain ⟨d, t, hs, hd, hh⟩ := h
  have h5 : ∀ x ∈ t.take 5, x ≠ 'T' := isHHMM_no_T (t.take 5) hh
  obtain ⟨w, ys, hw, ht⟩ := splitCh_head_take 'T' t 5 h5
  refine ⟨String.mk (w.take 5), ?_, ?_⟩
  · unfold FlightSearchTool.pyTimePart
    rw [hs, splitCh_not_mem 'T' d t hd, hw]
    rfl
  · show isHHMM (w.take 5) = true
    rw [ht]
    exact hh

/-- The mapping loop preserves the number of offers. -/
theorem mapOffers_length (rand : Nat → Nat) :
    ∀ (os : List Json) (i : Nat) (opts : List FlightOption),
      FlightSearchTool.mapOffers rand i os = .ok opts → opts.length = os.length := by
  intro os
  induction os with
  | nil =>
    intro i opts h
    simp only [FlightSearchTool.mapOffers, Except.ok.injEq] at h
    simp [← h]
  | cons o rest ih =>
    intro i opts h
    simp only [FlightSearchTool.mapOffers] at h
    cases hc : FlightSearchTool.mapOfferCore o with
    | error e => rw [hc] at h; simp at h
    | ok c =>
      rw [hc] at h
      dsimp only at h
      cases hm : FlightSearchTool.mapOffers rand (i + 1) rest with
      | error e => rw [hm] at h; simp at h
      | ok tail =>
        rw [hm] at h
        simp only [Except.ok.injEq] at h
        rw [← h]
        simp [ih (i + 1) tail hm]

/-- On a well-formed offer, one mapping iteration yields a nonnegative price
and a well-formed `"HH:MM"` departure time. -/
theorem mapOfferCore_wf (offer : Json) (c : FlightSearchTool.Core)
    (h : FlightSearchTool.mapOfferCore offer = .ok c) (hwf : OfferWF offer) :
    0 ≤ c.price ∧ isHHMM c.departure_time.data = true := by
  unfold FlightSearchTool.mapOfferCore at h
  cases h1 : FlightSearchTool.offerTotal offer with
  | error e => rw [h1] at h; simp at h
  | ok price =>
    rw [h1] at h
    dsimp only at h
    cases h2 : FlightSearchTool.offerDepartureAt offer with
    | error e => rw [h2] at h; simp at h
    | ok atS =>
      rw [h2] at h
      dsimp only at h
      obtain ⟨t5, htp, hhh⟩ := pyTimePart_of_TimestampOk atS (hwf.2 atS h2)
      rw [htp] at h
      dsimp only at h
      cases h4 : FlightSearchTool.offerDuration offer with
      | error e => rw [h4] at h; simp at h
      | ok durS =>
        rw [h4] at h
        dsimp only at h
        cases h5 : FlightSearchTool.offerCarrier offer with
        | error e => rw [h5] at h; simp at h
        | ok airline =>
          rw [h5] at h
          simp only [Except.ok.injEq] at h
          rw [← h]
          exact ⟨hwf.1 price h1, hhh⟩

/-- Over well-formed offers, every mapped option has a nonnegative price and
a well-formed `"HH:MM"` departure time. -/
theorem mapOffers_wf (rand : Nat → Nat) :
    ∀ (os : List Json) (i : Nat) (opts : List FlightOption),
      FlightSearchTool.mapOffers rand i os = .ok opts →
      (∀ off ∈ os, OfferWF off) →
      ∀ opt ∈ opts, 0 ≤ opt.price ∧ isHHMM opt.departure_time.data = true := by
  intro os
  induction os with
  | nil =>
    intro i opts h hwf opt hopt
    simp only [FlightSearchTool.mapOffers, Except.ok.injEq] at h
    rw [← h] at hopt
    simp at hopt
  | cons o rest ih =>
    intro i opts h hwf opt hopt
    simp only [FlightSearchTool.mapOffers] at h
    cases hc : FlightSearchTool.mapOfferCore o with
    | error e => rw [hc] at h; simp at h
    | ok c =>
      rw [hc] at h
      dsimp only at h
      cases hm : FlightSearchTool.mapOffers rand (i + 1) rest with
      | error e => rw [hm] at h; simp at h
      | ok tail =>
        rw [hm] at h
        simp only [Except.ok.injEq] at h
        rw [← h] at hopt
        rcases List.mem_cons.mp hopt with rfl | htail
        · exact mapOfferCore_wf o c hc (hwf o (List.mem_cons_self o rest))
        · exact ih (i + 1) tail hm (fun off hoff => hwf off (List.mem_cons_of_mem o hoff))
            opt htail

/-- Dissection of a successful flight run whose offers GET returned a
non-error status: the result is exactly the mapping of the first three
upstream offers. -/
theorem flight_run_success (net : Nat → HttpResult) (o d dt : String) (a : Nat)
    (rand : Nat → Nat) (st : Nat) (body : Json) (res : FlightSearchResult)
    (tr : List Request) (hnet : net 1 = .resp st body) (hst : st < 400)
    (hrun : FlightSearchTool.run net o d dt a rand = (.ok res, tr)) :
    ∃ offers, FlightSearchTool.responseData body = .ok offers ∧
      FlightSearchTool.mapOffers rand 0 (offers.take 3) = .ok res.options := by
  unfold FlightSearchTool.run at hrun
  cases ha : authExchange (net 0) with
  | error e => rw [ha] at hrun; simp at hrun
  | ok t =>
    rw [ha] at hrun
    dsimp only at hrun
    unfold FlightSearchTool.tryBlock at hrun
    rw [hnet] at hrun
    dsimp only at hrun
    rw [if_neg (by omega : ¬ 400 ≤ st)] at hrun
    cases hd : FlightSearchTool.responseData body with
    | error e =>
      rw [hd] at hrun
      cases e with
      | reqErr => exact absurd hd (responseData_no_req body)
      | valueErr => simp at hrun
      | keyErr => simp at hrun
      | indexErr => simp at hrun
      | typeErr => simp at hrun
      | attrErr => simp at hrun
    | ok offers =>
      rw [hd] at hrun
      dsimp only at hrun
      cases hm : FlightSearchTool.mapOffers rand 0 (offers.take 3) with
      | error e =>
        rw [hm] at hrun
        cases e with
        | reqErr => exact absurd hm (mapOffers_no_req rand (offers.take 3) 0)
        | valueErr => simp at hrun
        | keyErr => simp at hrun
        | indexErr => simp at hrun
        | typeErr => simp at hrun
        | attrErr => simp at hrun
      | ok opts =>
        rw [hm] at hrun
        simp only [Prod.mk.injEq, Except.ok.injEq] at hrun
        obtain ⟨hres, -⟩ := hrun
        subst hres
        exact ⟨offers, rfl, hm⟩

/-- C5, counterexample: with a succeeding offers GET whose single offer has
total `"-5.00"`, the run succeeds and returns an option with a negative
price, refuting "every option has price ≥ 0" as an unconditional invariant
of successful searches. -/
theorem C5_counterexample :
    (FlightSearchTool.run
        (mkFlightNet [mkFlightOffer "-5.00" "2025-12-15T08:30:00" "LX" "PT1H"])
        "MAA" "BSL" "2025-12-15" 1 rand0).1 =
      .ok ⟨[⟨"AMADEUS-100", "LX", -5, "08:30", "1h"⟩]⟩ ∧
    ¬(0 ≤ (-5 : ℚ)) := by
  constructor
  · with_unfolding_all rfl
  · with_unfolding_all decide

/-- C5, amended: a successful flight search whose offers GET returned a
non-error status maps exactly the first three upstream offers in upstream
order, so the result has at most 3 options; and whenever every upstream
offer is well formed (nonnegative total, date-`'T'`-time timestamp), every
returned option has a nonnegative price and a well-formed `"HH:MM"`
departure time. -/
theorem C5_amended (net : Nat → HttpResult) (o d dt : String) (a : Nat)
    (rand : Nat → Nat) (st : Nat) (body : Json) (res : FlightSearchResult)
    (tr : List Request) (hnet : net 1 = .resp st body) (hst : st < 400)
    (hrun : FlightSearchTool.run net o d dt a rand = (.ok res, tr)) :
    res.options.length ≤ 3 ∧
    (∃ offers, FlightSearchTool.responseData body = .ok offers ∧
      FlightSearchTool.mapOffers rand 0 (offers.take 3) = .ok res.options) ∧
    ((∀ offers, FlightSearchTool.responseData body = .ok offers →
        ∀ off ∈ offers, OfferWF off) →
      ∀ opt ∈ res.options, 0 ≤ opt.price ∧ isHHMM opt.departure_time.data = true) := by
  obtain ⟨offers, hd, hm⟩ :=
    flight_run_success net o d dt a rand st body res tr hnet hst hrun
  refine ⟨?_, ⟨offers, hd, hm⟩, ?_⟩
  · rw [mapOffers_length rand (offers.take 3) 0 res.options hm, List.length_take]
    exact min_le_left 3 offers.length
  · intro hwf opt hopt
    exact mapOffers_wf rand (offers.take 3) 0 res.options hm
      (fun off hoff => hwf offers hd off (List.take_subset 3 offers hoff)) opt hopt

/-- C5, witness for the amended theorem at the concrete `"450.00"` world. -/
theorem C5_amended_witness :
    (⟨[⟨"AMADEUS-100", "LX", 450, "08:30", "10h30m"⟩]⟩ :
        FlightSearchResult).options.length ≤ 3 ∧
    (∃ offers,
      FlightSearchTool.responseData
          (.obj [("data",
            .arr [mkFlightOffer "450.00" "2025-12-15T08:30:00" "LX" "PT10H30M"])]) =
        .ok offers ∧
      FlightSearchTool.mapOffers rand0 0 (offers.take 3) =
        .ok (⟨[⟨"AMADEUS-100", "LX", 450, "08:30", "10h30m"⟩]⟩ :
          FlightSearchResult).options) ∧
    ((∀ offers,
        FlightSearchTool.responseData
            (.obj [("data",
              .arr [mkFlightOffer "450.00" "2025-12-15T08:30:00" "LX" "PT10H30M"])]) =
          .ok offers →
        ∀ off ∈ offers, OfferWF off) →
      ∀ opt ∈ (⟨[⟨"AMADEUS-100", "LX", 450, "08:30", "10h30m"⟩]⟩ :
          FlightSearchResult).options,
        0 ≤ opt.price ∧ isHHMM opt.departure_time.data = true) :=
  C5_amended
    (mkFlightNet [mkFlightOffer "450.00" "2025-12-15T08:30:00" "LX" "PT10H30M"])
    "MAA" "BSL" "2025-12-15" 2 rand0 200
    (.obj [("data", .arr [mkFlightOffer "450.00" "2025-12-15T08:30:00" "LX" "PT10H30M"])])
    ⟨[⟨"AMADEUS-100", "LX", 450, "08:30", "10h30m"⟩]⟩
    [.authReq, .flightReq "MAA" "BSL" "2025-12-15" 2]
    rfl (by omega) (by with_unfolding_all rfl)

end TripPlanner
